import Mathlib

/-!
Verification of the artichoke time/offset subsystem against its
natural-language specification.  The definitions below are a shallow
embedding of `spinoso-time/src/time/tzrs/offset.rs` and
`artichoke-backend/src/extn/core/time/trampoline.rs`.  Machine integers
(`i32`, `i64`) are embedded as `Int` together with explicit range
predicates; fallible Rust functions returning `Result` are embedded as
`Except`.
-/

namespace Artichoke

/-- `i64` range predicate: `-2^63 ≤ n ≤ 2^63 - 1`. -/
def inI64 (n : Int) : Prop := -(2 ^ 63) ≤ n ∧ n ≤ 2 ^ 63 - 1

instance (n : Int) : Decidable (inI64 n) := by
  unfold inI64; infer_instance

/-- `i32` range predicate: `-2^31 ≤ n ≤ 2^31 - 1`. -/
def inI32 (n : Int) : Prop := -(2 ^ 31) ≤ n ∧ n ≤ 2 ^ 31 - 1

instance (n : Int) : Decidable (inI32 n) := by
  unfold inI32; infer_instance

/-- `i64::checked_mul`: `some` of the product when it fits in `i64`,
`none` on overflow. -/
def checked_mul (a b : Int) : Option Int :=
  if inI64 (a * b) then some (a * b) else none

/-! ## Decimal rendering

`offset_hhmm_from_seconds` uses Rust `format!` with the `{:0>2}` padding
spec: render the number in decimal and left-pad with `'0'` to a minimum
width of 2.  We embed decimal rendering with fuel-based recursion so the
kernel can evaluate it. -/

/-- Decimal digits of `n` (most significant first); empty for `n = 0`.
The `fuel` argument only bounds recursion depth: `fuel ≥ n` suffices. -/
def decimalDigitsAux : Nat → Nat → List Char
  | 0, _ => []
  | fuel + 1, n =>
    if n = 0 then []
    else decimalDigitsAux fuel (n / 10) ++ [Char.ofNat (48 + n % 10)]

/-- Decimal rendering of a natural number, as produced by Rust's
display formatting (`0` renders as `"0"`). -/
def decimalString (n : Nat) : List Char :=
  if n = 0 then ['0'] else decimalDigitsAux (n + 1) n

/-- Left-pad a rendered number with `'0'` to a minimum width of 2,
as Rust's `{:0>2}` format spec does. -/
def pad2 (l : List Char) : List Char :=
  if l.length < 2 then List.replicate (2 - l.length) '0' ++ l else l

/-- `offset_hhmm_from_seconds` from `offset.rs`: generates a `±HHMM`
designation from a number of seconds.  The seconds element is ignored;
the magnitude in minutes is split into hours and remaining minutes. -/
def offset_hhmm_from_seconds (seconds : Int) : String :=
  let flag : Char := if seconds < 0 then '-' else '+'
  let minutes : Nat := seconds.natAbs / 60
  let offset_hours : Nat := minutes / 60
  let offset_minutes : Nat := minutes - offset_hours * 60
  ⟨flag :: (pad2 (decimalString offset_hours) ++ pad2 (decimalString offset_minutes))⟩

/-- `tz::timezone::LocalTimeType`: resolved offset seconds, DST flag and
designation text (the fields read by this repository). -/
structure LocalTimeType where
  ut_offset : Int
  is_dst : Bool
  designation : String
deriving DecidableEq, Repr

/-- The `Offset` enum from `offset.rs`: UTC, a fixed offset carrying its
`LocalTimeType`, or a named time zone (opaque here: no claim inspects
the timezone database reference it carries). -/
inductive Offset where
  | Utc : Offset
  | Fixed : LocalTimeType → Offset
  | Tz : Offset
deriving DecidableEq, Repr

/-- `Offset::utc`. -/
def Offset.utc : Offset := .Utc

/-- `Offset::local`: wraps the detected system time zone (or the GMT
fallback) as a `Tz` offset. -/
def Offset.local : Offset := .Tz

/-- `Offset::fixed`: builds the designation with
`offset_hhmm_from_seconds` and stores it in a `LocalTimeType` with the
given offset seconds and `is_dst = false`. -/
def Offset.fixed (offset : Int) : Offset :=
  .Fixed ⟨offset, false, offset_hhmm_from_seconds offset⟩

/-- `TzStringError` from `offset.rs`: carries the offending input text. -/
structure TzStringError where
  text : String
deriving DecidableEq, Repr

/-- The `±HHMM` arm of `Offset::try_from`: the regex
`^([\-\+]{1})(\d{2})(\d{2})$` plus the capture-group arithmetic.  On a
match, returns `(sign, hours, minutes)`. -/
def hhmmMatch : List Char → Option (Int × Int × Int)
  | [s, h1, h2, m1, m2] =>
    if (s = '+' ∨ s = '-') ∧ h1.isDigit ∧ h2.isDigit ∧ m1.isDigit ∧ m2.isDigit then
      some ( if s = '+' then 1 else -1,
             10 * ((h1.toNat : Int) - 48) + ((h2.toNat : Int) - 48),
             10 * ((m1.toNat : Int) - 48) + ((m2.toNat : Int) - 48) )
    else none
  | _ => none

/-- `SECONDS_IN_MINUTE` from `offset.rs`. -/
def SECONDS_IN_MINUTE : Int := 60

/-- `SECONDS_IN_HOUR` from `offset.rs`. -/
def SECONDS_IN_HOUR : Int := SECONDS_IN_MINUTE * 60

/-- The letter arms of `Offset::try_from` (`"A"` through `"Z"` and the
literal `"UTC"`), as a first-match table over the input characters
mirroring Rust's `match` on `&str`.  `none` when no arm matches. -/
def letterOffset (l : List Char) : Option Offset :=
  if l = ['A'] then some (Offset.fixed 1)
  else if l = ['B'] then some (Offset.fixed 2)
  else if l = ['C'] then some (Offset.fixed 3)
  else if l = ['D'] then some (Offset.fixed 4)
  else if l = ['E'] then some (Offset.fixed 5)
  else if l = ['F'] then some (Offset.fixed 6)
  else if l = ['G'] then some (Offset.fixed 7)
  else if l = ['H'] then some (Offset.fixed 8)
  else if l = ['I'] then some (Offset.fixed 9)
  else if l = ['K'] then some (Offset.fixed 10)
  else if l = ['L'] then some (Offset.fixed 11)
  else if l = ['M'] then some (Offset.fixed 12)
  else if l = ['N'] then some (Offset.fixed (-1))
  else if l = ['O'] then some (Offset.fixed (-2))
  else if l = ['P'] then some (Offset.fixed (-3))
  else if l = ['Q'] then some (Offset.fixed (-4))
  else if l = ['R'] then some (Offset.fixed (-5))
  else if l = ['S'] then some (Offset.fixed (-6))
  else if l = ['T'] then some (Offset.fixed (-7))
  else if l = ['U'] then some (Offset.fixed (-8))
  else if l = ['V'] then some (Offset.fixed (-9))
  else if l = ['W'] then some (Offset.fixed (-10))
  else if l = ['X'] then some (Offset.fixed (-11))
  else if l = ['Y'] then some (Offset.fixed (-12))
  else if l = ['Z'] then some Offset.utc
  else if l = ['U', 'T', 'C'] then some Offset.utc
  else none

/-- `impl TryFrom<&str> for Offset` from `offset.rs`: the letter arms
first (via `letterOffset`), then the `±HHMM` regex arm, otherwise the
error carrying the input text. -/
def Offset.try_from (input : String) : Except TzStringError Offset :=
  match letterOffset input.data with
  | some o => .ok o
  | none =>
    match hhmmMatch input.data with
    | some (sign, hours, minutes) =>
      .ok (Offset.fixed (sign * ((hours * SECONDS_IN_HOUR) + (minutes * SECONDS_IN_MINUTE))))
    | none => .error ⟨input⟩

/-- `offset_name` from the tests in `offset.rs`: the designation text an
offset reports. -/
def offset_name : Offset → String
  | .Utc => "UTC"
  | .Fixed ltt => ltt.designation
  | .Tz => "Ambiguous timezone name"

example : Offset.try_from "A" = .ok (Offset.fixed 1) := rfl
example : Offset.try_from "+0061" = .ok (Offset.fixed 3660) := rfl
example : offset_name (Offset.fixed (-59)) = "-0000" := rfl
example : offset_name (Offset.fixed 360000) = "+10000" := rfl
example : offset_name (Offset.fixed 7320) = "+0202" := rfl

/-! ## Offset resolution and the truth-about-UTC query -/

/-- `Offset::time_zone_ref` from `offset.rs`, projected to the resolved
local time type it yields: `Utc` resolves through `TimeZoneRef::utc()`
to offset 0 with no DST and an empty designation (per §4.3 of the
spec), a `Fixed` offset resolves to its stored `LocalTimeType`.  Named
zones delegate to the timezone database and are not modelled
(`none`). -/
def Offset.resolvedLocalTimeType : Offset → Option LocalTimeType
  | .Utc => some ⟨0, false, ""⟩
  | .Fixed ltt => some ltt
  | .Tz => none

/-- Modelled from the spec: `Time#utc?` (the `is_utc` query of the
`spinoso-time` `Time` type, whose source is not in this tree) answers
whether the attached offset is the true UTC variant, as opposed to a
zero fixed offset. -/
def Offset.is_utc : Offset → Bool
  | .Utc => true
  | _ => false

/-! ## The trampoline layer

`trampoline.rs` mediates between dynamic interpreter values and the
native `Time`.  Dynamic values are embedded as the `RValue` inductive
below; the interpreter-side conversion and boxing primitives it calls
(`implicitly_convert_to_int`, `Symbol::unbox_from_value`,
`Time::unbox_from_value`, `try_convert_mut`) live outside this tree and
are modelled from the spec's boundary description (§6). -/

/-- The native `Time` value: seconds since epoch, nanoseconds,
offset.  (`spinoso-time`: `Time { inner: DateTime, offset: Offset }`
projected to the components the claims touch.) -/
structure Time where
  seconds : Int
  nanos : Int
  offset : Offset
deriving DecidableEq, Repr

/-- Interpreter error kinds crossing the boundary (spec §6/§7). -/
inductive ErrorKind where
  | argumentError
  | typeError
  | rangeError
  | runtimeError
  | notImplementedError
  | standardError
deriving DecidableEq, Repr

/-- An interpreter-level error: a kind plus a human-readable message. -/
structure RError where
  kind : ErrorKind
  message : String
deriving DecidableEq, Repr

/-- Dynamic interpreter values, restricted to the shapes the time
trampolines inspect. -/
inductive RValue where
  | fixnum : Int → RValue
  | str : String → RValue
  | sym : String → RValue
  | hash : List (RValue × RValue) → RValue
  | timeVal : Time → RValue
  | bool : Bool → RValue
  | float : RValue
deriving Repr

/-- `Value::ruby_type` tags, as matched by `trampoline.rs`. -/
inductive Ruby where
  | fixnum
  | string
  | symbol
  | hash
  | data
  | bool
  | float
deriving DecidableEq, Repr

/-- Modelled from the spec: the dynamic-value boundary's type tag of a
value (`Value::ruby_type`); boxed native `Time` payloads carry the
`data` tag. -/
def ruby_type : RValue → Ruby
  | .fixnum _ => .fixnum
  | .str _ => .string
  | .sym _ => .symbol
  | .hash _ => .hash
  | .timeVal _ => .data
  | .bool _ => .bool
  | .float => .float

/-- Modelled from the spec: the interpreter's class name for a value,
as read by `inspect_type_name_for_value`. -/
def typeName : RValue → String
  | .fixnum _ => "Integer"
  | .str _ => "String"
  | .sym _ => "Symbol"
  | .hash _ => "Hash"
  | .timeVal _ => "Time"
  | .bool true => "TrueClass"
  | .bool false => "FalseClass"
  | .float => "Float"

/-- Modelled from the spec: `implicitly_convert_to_int` of the
conversion boundary (§6) — an integer value converts to itself, any
other value fails with a type error. -/
def implicitly_convert_to_int : RValue → Except RError Int
  | .fixnum n => .ok n
  | v => .error ⟨.typeError, "no implicit conversion of " ++ typeName v ++ " into Integer"⟩

/-- Modelled from the spec: `Symbol::unbox_from_value` — retrieving the
symbol payload fails with a type error when the tag mismatches (§4.1). -/
def unbox_symbol : RValue → Except RError String
  | .sym s => .ok s
  | _ => .error ⟨.typeError, "wrong payload type, expected Symbol"⟩

/-- Modelled from the spec: `Time::unbox_from_value` — retrieving the
native `Time` payload fails with a type error when the tag mismatches
(§4.1). -/
def unbox_time : RValue → Except RError Time
  | .timeVal t => .ok t
  | _ => .error ⟨.typeError, "wrong payload type, expected Time"⟩

/-- Modelled from the spec: `interp.try_convert_mut` of a hash value
into its key/value pairs; fails with a type error otherwise. -/
def try_convert_hash : RValue → Except RError (List (RValue × RValue))
  | .hash kvs => .ok kvs
  | _ => .error ⟨.typeError, "no implicit conversion into Hash"⟩

/-- `MAX_NANOS` from `trampoline.rs`: `1_000_000_000 - 1`. -/
def MAX_NANOS : Int := 1000000000 - 1

/-- `MICROS_IN_NANO` from `spinoso-time`: nanoseconds per microsecond. -/
def MICROS_IN_NANO : Int := 1000

/-- `subsec_multiplier` from `trampoline.rs`: maps the optional unit
symbol to the nanosecond multiplier, defaulting to microseconds. -/
def subsec_multiplier (subsec_type : Option RValue) : Except RError Int :=
  match subsec_type with
  | some v =>
    match unbox_symbol v with
    | .error e => .error e
    | .ok subsec_symbol =>
      if subsec_symbol = "milliseconds" then .ok 1000000
      else if subsec_symbol = "usec" then .ok 1000
      else if subsec_symbol = "nsec" then .ok 1
      else .error ⟨.argumentError, "unexpected unit. expects :milliseconds, :usec, :nsec"⟩
  | none => .ok MICROS_IN_NANO

/-- The key-collection pass of `offset_from_options`: each key must be
the symbol `in`, whose value is kept; any other key fails with the
`unknown keyword` argument error (first failure wins, as in the Rust
`map`/`collect`). -/
def collectInValues : List (RValue × RValue) → Except RError (List RValue)
  | [] => .ok []
  | (k, v) :: rest =>
    match unbox_symbol k with
    | .error e => .error e
    | .ok key =>
      if key = "in" then
        match collectInValues rest with
        | .ok vs => .ok (v :: vs)
        | .error e => .error e
      else .error ⟨.argumentError, "unknown keyword"⟩

/-- `offset_from_options` from `trampoline.rs`: the options hash must
contain exactly the key `in`; an integer value becomes a fixed offset
(after an `i32` range check), a string value goes through the offset
parser, and anything else is an argument error. -/
def offset_from_options (options : RValue) : Except RError Offset :=
  match try_convert_hash options with
  | .error e => .error e
  | .ok kvs =>
    match collectInValues kvs with
    | .error e => .error e
    | .ok tz =>
      match tz with
      | [.fixnum n] =>
        if inI32 n then .ok (Offset.fixed n)
        else .error ⟨.argumentError, "invalid offset"⟩
      | [.str s] =>
        match Offset.try_from s with
        | .ok o => .ok o
        | .error _ =>
          .error ⟨.argumentError, "+HH:MM, -HH:MM, UTC, or A..I,K..Z expected for utc_offset"⟩
      | [_] =>
        .error ⟨.argumentError,
          "+HH:MM, -HH:MM, UTC, A..I,K..Z, or a signed number of seconds expected for utc_offset"⟩
      | _ => .error ⟨.argumentError, "unknown keyword"⟩

/-- The argument-shape dispatch at the top of `at` in `trampoline.rs`:
from the `ruby_type` tags of the three optional arguments, select the
`(subsec, subsec_type, options)` triple or reject. -/
def argShape (opt1 opt2 opt3 : Option RValue) :
    Except RError (Option RValue × Option RValue × Option RValue) :=
  match opt1.map ruby_type, opt2.map ruby_type, opt3.map ruby_type with
  | none, none, none => .ok (none, none, none)
  | some .hash, none, none => .ok (none, none, opt1)
  | some .fixnum, none, none => .ok (opt1, none, none)
  | some _, none, none => .error ⟨.argumentError, "expected a number"⟩
  | some .fixnum, some .hash, none => .ok (opt1, none, opt2)
  | some .fixnum, some .symbol, none => .ok (opt1, opt2, none)
  | some .fixnum, some _, none =>
    .error ⟨.argumentError, "expected one of [:milliseconds, :usec, :nsec]"⟩
  | some .fixnum, some .symbol, some .hash => .ok (opt1, opt2, opt3)
  | _, _, _ => .error ⟨.argumentError, "invalid arguments"⟩

/-- The subsecond computation inside `at`: multiplier lookup, integer
conversion, checked multiply (overflow → `Time too large`), then the
range check `0..=MAX_NANOS` with its two distinct failure messages. -/
def subsecNanos (subsec subsec_type : Option RValue) : Except RError Int :=
  match subsec with
  | some subsec =>
    match subsec_multiplier subsec_type with
    | .error e => .error e
    | .ok m =>
      match implicitly_convert_to_int subsec with
      | .error e => .error e
      | .ok sv =>
        match checked_mul sv m with
        | none => .error ⟨.argumentError, "Time too large"⟩
        | some prod =>
          if 0 ≤ prod ∧ prod ≤ MAX_NANOS then .ok prod
          else if prod < 0 then .error ⟨.argumentError, "subseconds needs to be > 0"⟩
          else .error ⟨.argumentError, "subseconds outside of range"⟩
  | none => .ok 0

/-- Modelled from the spec: `Time::with_timespec_and_offset` (§4.4)
validates `0 ≤ nanoseconds < 1_000_000_000` and that the seconds fit
the supported integer width, failing with a range error otherwise. -/
def with_timespec_and_offset (seconds nanos : Int) (offset : Offset) : Except RError Time :=
  if 0 ≤ nanos ∧ nanos < 1000000000 ∧ inI64 seconds then .ok ⟨seconds, nanos, offset⟩
  else .error ⟨.rangeError, "out of range"⟩

/-- `at` from `trampoline.rs`: argument-shape dispatch, seconds
conversion, subsecond computation, offset selection (options hash or
the local zone), then time construction; a failing construction is
reported as the `Time too large` argument error. -/
def timeAt (seconds : RValue) (opt1 opt2 opt3 : Option RValue) : Except RError Time :=
  match argShape opt1 opt2 opt3 with
  | .error e => .error e
  | .ok (subsec, subsec_type, options) =>
    match implicitly_convert_to_int seconds with
    | .error e => .error e
    | .ok secs =>
      match subsecNanos subsec subsec_type with
      | .error e => .error e
      | .ok subsec_nanos =>
        match (match options with
               | some o => offset_from_options o
               | none => .ok Offset.local) with
        | .error e => .error e
        | .ok offset =>
          match with_timespec_and_offset secs subsec_nanos offset with
          | .ok t => .ok t
          | .error _ => .error ⟨.argumentError, "Time too large"⟩

/-- Modelled from the spec: `Time` ordering (§4.4) compares absolute
instants (seconds, then nanoseconds), independent of the offset;
rendered as the integer the Rust `Ordering as i32` cast produces. -/
def timeCmp (a b : Time) : Int :=
  if a.seconds < b.seconds then -1
  else if b.seconds < a.seconds then 1
  else if a.nanos < b.nanos then -1
  else if b.nanos < a.nanos then 1
  else 0

/-- Modelled from the spec: `Time` equality (§4.4) compares absolute
instants, independent of the offset. -/
def timeEq (a b : Time) : Bool :=
  a.seconds = b.seconds ∧ a.nanos = b.nanos

/-- `cmp` from `trampoline.rs`: unbox both sides; a non-`Time` argument
produces the `comparison of Time with <class> failed` argument error. -/
def cmp (time other : RValue) : Except RError RValue :=
  match unbox_time time with
  | .error e => .error e
  | .ok t =>
    match unbox_time other with
    | .ok o => .ok (.fixnum (timeCmp t o))
    | .error _ =>
      .error ⟨.argumentError, "comparison of Time with " ++ typeName other ++ " failed"⟩

/-- `eql` from `trampoline.rs`: unbox both sides; a non-`Time` argument
yields `false` instead of an error. -/
def eql (time other : RValue) : Except RError RValue :=
  match unbox_time time with
  | .error e => .error e
  | .ok t =>
    match unbox_time other with
    | .ok o => .ok (.bool (timeEq t o))
    | .error _ => .ok (.bool false)

/-- The kind of the error an `Except` result carries, when it is one. -/
def errKind {α : Type} : Except RError α → Option ErrorKind
  | .error e => some e.kind
  | .ok _ => none

/-! ## Helper lemmas about the offset parser and renderer -/

/-- No letter arm matches a list that is not of length 1 or 3. -/
theorem letterOffset_eq_none (l : List Char) (h1 : l.length ≠ 1) (h3 : l.length ≠ 3) :
    letterOffset l = none := by
  unfold letterOffset
  rw [if_neg (fun hEq => by simp [hEq] at h1), if_neg (fun hEq => by simp [hEq] at h1),
      if_neg (fun hEq => by simp [hEq] at h1), if_neg (fun hEq => by simp [hEq] at h1),
      if_neg (fun hEq => by simp [hEq] at h1), if_neg (fun hEq => by simp [hEq] at h1),
      if_neg (fun hEq => by simp [hEq] at h1), if_neg (fun hEq => by simp [hEq] at h1),
      if_neg (fun hEq => by simp [hEq] at h1), if_neg (fun hEq => by simp [hEq] at h1),
      if_neg (fun hEq => by simp [hEq] at h1), if_neg (fun hEq => by simp [hEq] at h1),
      if_neg (fun hEq => by simp [hEq] at h1), if_neg (fun hEq => by simp [hEq] at h1),
      if_neg (fun hEq => by simp [hEq] at h1), if_neg (fun hEq => by simp [hEq] at h1),
      if_neg (fun hEq => by simp [hEq] at h1), if_neg (fun hEq => by simp [hEq] at h1),
      if_neg (fun hEq => by simp [hEq] at h1), if_neg (fun hEq => by simp [hEq] at h1),
      if_neg (fun hEq => by simp [hEq] at h1), if_neg (fun hEq => by simp [hEq] at h1),
      if_neg (fun hEq => by simp [hEq] at h1), if_neg (fun hEq => by simp [hEq] at h1),
      if_neg (fun hEq => by simp [hEq] at h1),
      if_neg (fun hEq => by simp [hEq] at h3)]

/-- `hhmmMatch` unfolded on a 5-character list. -/
theorem hhmmMatch_cons (s h1 h2 m1 m2 : Char) :
    hhmmMatch [s, h1, h2, m1, m2] =
      if (s = '+' ∨ s = '-') ∧ h1.isDigit ∧ h2.isDigit ∧ m1.isDigit ∧ m2.isDigit then
        some ( if s = '+' then 1 else -1,
               10 * ((h1.toNat : Int) - 48) + ((h2.toNat : Int) - 48),
               10 * ((m1.toNat : Int) - 48) + ((m2.toNat : Int) - 48) )
      else none := rfl

example : subsec_multiplier (some (.sym "usec")) = .ok 1000 := rfl
example : timeAt (.fixnum 0) (some (.fixnum 999999999)) (some (.sym "nsec")) none =
    .ok ⟨0, 999999999, Offset.local⟩ := rfl
example : timeAt (.fixnum 0) (some (.fixnum 1000000000)) (some (.sym "nsec")) none =
    .error ⟨.argumentError, "subseconds outside of range"⟩ := rfl
example : timeAt (.fixnum 0) (some (.fixnum 10000000000000)) (some (.sym "milliseconds")) none =
    .error ⟨.argumentError, "Time too large"⟩ := rfl
example : offset_from_options (.hash [(.sym "in", .fixnum 3600)]) = .ok (Offset.fixed 3600) := rfl
example : offset_from_options (.hash [(.sym "foo", .fixnum 1)]) =
    .error ⟨.argumentError, "unknown keyword"⟩ := rfl
example : cmp (.timeVal ⟨0, 0, Offset.utc⟩) (.fixnum 5) =
    .error ⟨.argumentError, "comparison of Time with Integer failed"⟩ := rfl
example : eql (.timeVal ⟨0, 0, Offset.utc⟩) (.fixnum 5) = .ok (.bool false) := rfl

/-- Successful `±HHMM` parse, for arbitrary sign and digit characters. -/
theorem try_from_hhmm_ok (s h1 h2 m1 m2 : Char) (hs : s = '+' ∨ s = '-')
    (d1 : h1.isDigit) (d2 : h2.isDigit) (d3 : m1.isDigit) (d4 : m2.isDigit) :
    Offset.try_from ⟨[s, h1, h2, m1, m2]⟩ =
      .ok (Offset.fixed ((if s = '+' then 1 else -1) *
        (((10 * ((h1.toNat : Int) - 48) + ((h2.toNat : Int) - 48)) * SECONDS_IN_HOUR) +
         ((10 * ((m1.toNat : Int) - 48) + ((m2.toNat : Int) - 48)) * SECONDS_IN_MINUTE)))) := by
  unfold Offset.try_from
  rw [show (String.mk [s, h1, h2, m1, m2]).data = [s, h1, h2, m1, m2] from rfl]
  rw [letterOffset_eq_none [s, h1, h2, m1, m2] (by simp) (by simp)]
  rw [hhmmMatch_cons, if_pos ⟨hs, d1, d2, d3, d4⟩]

/-- Whatever error `try_from` produces carries exactly the input text. -/
theorem try_from_error_text (input : String) (e : TzStringError)
    (h : Offset.try_from input = .error e) : e = ⟨input⟩ := by
  unfold Offset.try_from at h
  cases hL : letterOffset input.data with
  | some o => rw [hL] at h; exact absurd h (by simp)
  | none =>
    rw [hL] at h
    cases hM : hhmmMatch input.data with
    | some v => rw [hM] at h; rcases v with ⟨a, b, c⟩; exact absurd h (by simp)
    | none => rw [hM] at h; injection h with h2; exact h2.symm

/-- C4: every `±HHMM` input parses to a fixed offset of
sign × (HH×3600 + MM×60) seconds, with no bound on the minute group
("+0061" gives +3660 s), and every input matching no grammar rule fails
with a parse error carrying the offending text. -/
theorem try_from_hhmm_grammar :
    (∀ s h1 h2 m1 m2 : Char, s = '+' ∨ s = '-' →
      h1.isDigit → h2.isDigit → m1.isDigit → m2.isDigit →
      Offset.try_from ⟨[s, h1, h2, m1, m2]⟩ =
        .ok (Offset.fixed ((if s = '+' then 1 else -1) *
          (((10 * ((h1.toNat : Int) - 48) + ((h2.toNat : Int) - 48)) * SECONDS_IN_HOUR) +
           ((10 * ((m1.toNat : Int) - 48) + ((m2.toNat : Int) - 48)) * SECONDS_IN_MINUTE))))) ∧
    SECONDS_IN_HOUR = 3600 ∧ SECONDS_IN_MINUTE = 60 ∧
    Offset.try_from "+0061" = .ok (Offset.fixed 3660) ∧
    (∀ input e, Offset.try_from input = .error e → e = ⟨input⟩) ∧
    Offset.try_from "12:30" = .error ⟨"12:30"⟩ :=
  ⟨try_from_hhmm_ok, rfl, rfl, rfl, try_from_error_text, rfl⟩

/-- Witness for C4's theorem at the concrete input `"+0061"`. -/
theorem try_from_hhmm_grammar_witness :
    Offset.try_from "+0061" = .ok (Offset.fixed 3660) :=
  try_from_hhmm_grammar.1 '+' '0' '0' '6' '1' (Or.inl rfl)
    (by decide) (by decide) (by decide) (by decide)

/-- C1: evaluating the letter arms of `Offset::try_from`.  The code
returns `Offset::fixed(1)` for `"A"` — a fixed offset of one SECOND
(resolved offset seconds 1, not 3600), contradicting the doc comment
above `try_from` (`A-I representing +01:00 to +09:00`), and similarly
for every other letter; `"Z"`/`"UTC"` map to UTC and `"J"` fails, as
claimed. -/
theorem try_from_letter_eval :
    Offset.try_from "A" = .ok (Offset.fixed 1) ∧
    Option.map LocalTimeType.ut_offset (Offset.resolvedLocalTimeType (Offset.fixed 1)) =
      some 1 ∧
    Offset.fixed 1 ≠ Offset.fixed 3600 ∧
    Offset.try_from "I" = .ok (Offset.fixed 9) ∧
    Offset.try_from "K" = .ok (Offset.fixed 10) ∧
    Offset.try_from "M" = .ok (Offset.fixed 12) ∧
    Offset.try_from "N" = .ok (Offset.fixed (-1)) ∧
    Offset.try_from "Y" = .ok (Offset.fixed (-12)) ∧
    Offset.try_from "Z" = .ok Offset.utc ∧
    Offset.try_from "UTC" = .ok Offset.utc ∧
    Offset.try_from "J" = .error ⟨"J"⟩ :=
  ⟨rfl, rfl, by decide, rfl, rfl, rfl, rfl, rfl, rfl, rfl, rfl⟩

/-- C5: a fixed offset of zero seconds is a distinct value from the UTC
variant; both resolve to zero offset seconds, but only UTC answers true
to the is-UTC query. -/
theorem fixed_zero_distinct_from_utc :
    Offset.fixed 0 ≠ Offset.utc ∧
    Option.map LocalTimeType.ut_offset (Offset.resolvedLocalTimeType (Offset.fixed 0)) =
      some 0 ∧
    Option.map LocalTimeType.ut_offset (Offset.resolvedLocalTimeType Offset.utc) = some 0 ∧
    Offset.is_utc Offset.utc = true ∧
    Offset.is_utc (Offset.fixed 0) = false :=
  ⟨by decide, rfl, rfl, rfl, rfl⟩

/-- A negative offset's designation is `'-'` followed by the magnitude
text of the opposite (positive) offset. -/
theorem fixed_designation_neg (s : Int) (hs : s < 0) :
    (offset_name (Offset.fixed s)).data =
      '-' :: ((offset_name (Offset.fixed (-s))).data.tail) := by
  show (offset_hhmm_from_seconds s).data = '-' :: ((offset_hhmm_from_seconds (-s)).data.tail)
  simp only [offset_hhmm_from_seconds]
  rw [if_pos hs, if_neg (by omega : ¬(-s < 0)), Int.natAbs_neg]
  rfl

/-- A non-negative offset's designation starts with `'+'`. -/
theorem fixed_designation_nonneg (s : Int) (hs : 0 ≤ s) :
    (offset_name (Offset.fixed s)).data.head? = some '+' := by
  show (offset_hhmm_from_seconds s).data.head? = some '+'
  simp only [offset_hhmm_from_seconds]
  rw [if_neg (by omega : ¬(s < 0))]
  rfl

/-- C6: the fixed-offset designation is the sign character followed by
text derived purely from the absolute magnitude; in particular -59
seconds renders as "-0000", not "+0000". -/
theorem fixed_designation_sign_magnitude :
    (∀ s : Int, s < 0 → (offset_name (Offset.fixed s)).data =
        '-' :: ((offset_name (Offset.fixed (-s))).data.tail)) ∧
    (∀ s : Int, 0 ≤ s → (offset_name (Offset.fixed s)).data.head? = some '+') ∧
    offset_name (Offset.fixed (-59)) = "-0000" ∧
    offset_name (Offset.fixed (-59)) ≠ "+0000" :=
  ⟨fixed_designation_neg, fixed_designation_nonneg, rfl, by decide⟩

/-- Witness for C6's theorem at -60 and +60 seconds. -/
theorem fixed_designation_sign_magnitude_witness :
    (offset_name (Offset.fixed (-60))).data =
      '-' :: ((offset_name (Offset.fixed (-(-60)))).data.tail) ∧
    (offset_name (Offset.fixed 60)).data.head? = some '+' :=
  ⟨fixed_designation_sign_magnitude.1 (-60) (by decide),
   fixed_designation_sign_magnitude.2.1 60 (by decide)⟩

/-! ## Designation length bounds (C10) -/

/-- A number with at least `k+1` decimal digits renders to at least
`k+1` characters (given sufficient fuel). -/
theorem decimalDigitsAux_len : ∀ (fuel n k : Nat), 10 ^ k ≤ n → n ≤ fuel →
    k + 1 ≤ (decimalDigitsAux fuel n).length := by
  intro fuel
  induction fuel with
  | zero =>
    intro n k hk hn
    have h1 := Nat.one_le_pow k 10 (by norm_num)
    omega
  | succ f ih =>
    intro n k hk hn
    have h1 := Nat.one_le_pow k 10 (by norm_num)
    have hn0 : n ≠ 0 := by omega
    rw [show decimalDigitsAux (f + 1) n =
        (if n = 0 then [] else decimalDigitsAux f (n / 10) ++ [Char.ofNat (48 + n % 10)]) from
        rfl]
    rw [if_neg hn0, List.length_append]
    cases k with
    | zero => simp
    | succ j =>
      have h10 : 10 ^ j ≤ n / 10 := by
        rw [Nat.le_div_iff_mul_le (by norm_num)]
        calc 10 ^ j * 10 = 10 ^ (j + 1) := (pow_succ 10 j).symm
          _ ≤ n := hk
      have hfu : n / 10 ≤ f := by
        have := Nat.div_lt_self (by omega : 0 < n) (by norm_num : 1 < 10)
        omega
      have := ih (n / 10) j h10 hfu
      simp
      omega

/-- Zero-padding never shortens. -/
theorem pad2_len_ge (l : List Char) : l.length ≤ (pad2 l).length := by
  unfold pad2
  split
  · simp only [List.length_append, List.length_replicate]
    omega
  · exact le_refl _

/-- The padded group is at least two characters wide. -/
theorem pad2_len_ge_two (l : List Char) : 2 ≤ (pad2 l).length := by
  unfold pad2
  split
  · simp only [List.length_append, List.length_replicate]
    omega
  · omega

/-- At least three characters render a number of at least 100. -/
theorem decimalString_len (n : Nat) (h : 100 ≤ n) : 3 ≤ (decimalString n).length := by
  unfold decimalString
  rw [if_neg (by omega)]
  exact decimalDigitsAux_len (n + 1) n 2 (by norm_num; omega) (by omega)

/-- The designation of a fixed offset of magnitude at least 100 hours
is at least six characters. -/
theorem offset_name_fixed_len_large (s : Int) (h : 360000 ≤ s.natAbs) :
    6 ≤ (offset_name (Offset.fixed s)).length := by
  show 6 ≤ (offset_hhmm_from_seconds s).length
  unfold offset_hhmm_from_seconds
  rw [show ∀ l : List Char, (String.mk l).length = l.length from fun _ => rfl]
  simp only [List.length_cons, List.length_append]
  have hh : 100 ≤ s.natAbs / 60 / 60 := by
    have h1 : 360000 / 60 ≤ s.natAbs / 60 := Nat.div_le_div_right h
    have h2 : 6000 / 60 ≤ s.natAbs / 60 / 60 := Nat.div_le_div_right (by omega)
    omega
  have h3 := decimalString_len (s.natAbs / 60 / 60) hh
  have h4 := pad2_len_ge (decimalString (s.natAbs / 60 / 60))
  have h5 := pad2_len_ge_two (decimalString (s.natAbs / 60 - s.natAbs / 60 / 60 * 60))
  omega

/-- C10: for every magnitude of at least 360 000 seconds (100 hours),
`Offset::fixed` still produces a designation, wider than the four-digit
`±HHMM` shape (at least 6 characters); at 360 000 it is exactly
"+10000". -/
theorem large_offset_designation_widens :
    (∀ s : Int, 360000 ≤ s.natAbs → 6 ≤ (offset_name (Offset.fixed s)).length) ∧
    offset_name (Offset.fixed 360000) = "+10000" ∧
    (offset_name (Offset.fixed 360000)).length = 6 :=
  ⟨offset_name_fixed_len_large, rfl, rfl⟩

/-- Witness for C10's theorem at 360 000 seconds. -/
theorem large_offset_designation_widens_witness :
    6 ≤ (offset_name (Offset.fixed 360000)).length :=
  large_offset_designation_widens.1 360000 (by decide)

/-! ## Trampoline-layer claims -/

/-- Any unit symbol other than the three recognized ones is rejected
with the argument error. -/
theorem subsec_multiplier_other (u : String) (h1 : u ≠ "milliseconds") (h2 : u ≠ "usec")
    (h3 : u ≠ "nsec") :
    subsec_multiplier (some (.sym u)) =
      .error ⟨.argumentError, "unexpected unit. expects :milliseconds, :usec, :nsec"⟩ := by
  simp only [subsec_multiplier, unbox_symbol]
  rw [if_neg h1, if_neg h2, if_neg h3]

/-- C8: the subsecond unit selects the multiplier — milliseconds
×1 000 000, microseconds (`:usec`) ×1 000 and the default when no unit
is given, nanoseconds (`:nsec`) ×1; any other unit symbol fails with an
argument error. -/
theorem subsec_multiplier_units :
    subsec_multiplier (some (.sym "milliseconds")) = .ok 1000000 ∧
    subsec_multiplier (some (.sym "usec")) = .ok 1000 ∧
    subsec_multiplier none = .ok MICROS_IN_NANO ∧
    MICROS_IN_NANO = 1000 ∧
    subsec_multiplier (some (.sym "nsec")) = .ok 1 ∧
    (∀ u : String, u ≠ "milliseconds" → u ≠ "usec" → u ≠ "nsec" →
      subsec_multiplier (some (.sym u)) =
        .error ⟨.argumentError, "unexpected unit. expects :milliseconds, :usec, :nsec"⟩) :=
  ⟨rfl, rfl, rfl, rfl, rfl, subsec_multiplier_other⟩

/-- Witness for C8's theorem at the unit symbol `:microseconds`. -/
theorem subsec_multiplier_units_witness :
    subsec_multiplier (some (.sym "microseconds")) =
      .error ⟨.argumentError, "unexpected unit. expects :milliseconds, :usec, :nsec"⟩ :=
  subsec_multiplier_units.2.2.2.2.2 "microseconds" (by decide) (by decide) (by decide)

/-- `offset_from_options` on a hash, with the conversion layer peeled
off. -/
theorem offset_from_options_hash (kvs : List (RValue × RValue)) :
    offset_from_options (.hash kvs) =
      match collectInValues kvs with
      | .error e => .error e
      | .ok tz =>
        match tz with
        | [.fixnum n] =>
          if inI32 n then .ok (Offset.fixed n) else .error ⟨.argumentError, "invalid offset"⟩
        | [.str s] =>
          (match Offset.try_from s with
            | .ok o => .ok o
            | .error _ =>
              .error ⟨.argumentError,
                "+HH:MM, -HH:MM, UTC, or A..I,K..Z expected for utc_offset"⟩)
        | [_] =>
          .error ⟨.argumentError,
            "+HH:MM, -HH:MM, UTC, A..I,K..Z, or a signed number of seconds expected for utc_offset"⟩
        | _ => .error ⟨.argumentError, "unknown keyword"⟩ := rfl

/-- `offset_from_options` on a single-entry `in:` hash. -/
theorem offset_from_options_single (v : RValue) :
    offset_from_options (.hash [(.sym "in", v)]) =
      match v with
      | .fixnum n =>
        if inI32 n then .ok (Offset.fixed n) else .error ⟨.argumentError, "invalid offset"⟩
      | .str s =>
        (match Offset.try_from s with
          | .ok o => .ok o
          | .error _ =>
            .error ⟨.argumentError, "+HH:MM, -HH:MM, UTC, or A..I,K..Z expected for utc_offset"⟩)
      | _ =>
        .error ⟨.argumentError,
          "+HH:MM, -HH:MM, UTC, A..I,K..Z, or a signed number of seconds expected for utc_offset"⟩ := by
  cases v <;> rfl

/-- C7: the options hash recognizes exactly the key `in` — integer
value becomes a fixed-seconds offset, string value goes through the
offset parser (parse failure becoming an argument error); any other
key, the empty hash, and more than one entry are rejected with an
argument error. -/
theorem offset_from_options_in_key :
    (∀ n : Int, inI32 n →
      offset_from_options (.hash [(.sym "in", .fixnum n)]) = .ok (Offset.fixed n)) ∧
    (∀ s o, Offset.try_from s = .ok o →
      offset_from_options (.hash [(.sym "in", .str s)]) = .ok o) ∧
    (∀ s e, Offset.try_from s = .error e →
      offset_from_options (.hash [(.sym "in", .str s)]) =
        .error ⟨.argumentError, "+HH:MM, -HH:MM, UTC, or A..I,K..Z expected for utc_offset"⟩) ∧
    (∀ (key : String) (v : RValue), key ≠ "in" →
      offset_from_options (.hash [(.sym key, v)]) =
        .error ⟨.argumentError, "unknown keyword"⟩) ∧
    offset_from_options (.hash []) = .error ⟨.argumentError, "unknown keyword"⟩ ∧
    (∀ v1 v2 : RValue, offset_from_options (.hash [(.sym "in", v1), (.sym "in", v2)]) =
      .error ⟨.argumentError, "unknown keyword"⟩) := by
  refine ⟨?_, ?_, ?_, ?_, rfl, ?_⟩
  · intro n h
    rw [offset_from_options_single]
    show (if inI32 n then (Except.ok (Offset.fixed n) : Except RError Offset)
          else .error ⟨.argumentError, "invalid offset"⟩) = _
    rw [if_pos h]
  · intro s o h
    rw [offset_from_options_single]
    show (match Offset.try_from s with
          | .ok o => (Except.ok o : Except RError Offset)
          | .error _ =>
            .error ⟨.argumentError,
              "+HH:MM, -HH:MM, UTC, or A..I,K..Z expected for utc_offset"⟩) = _
    rw [h]
  · intro s e h
    rw [offset_from_options_single]
    show (match Offset.try_from s with
          | .ok o => (Except.ok o : Except RError Offset)
          | .error _ =>
            .error ⟨.argumentError,
              "+HH:MM, -HH:MM, UTC, or A..I,K..Z expected for utc_offset"⟩) = _
    rw [h]
  · intro key v hk
    rw [offset_from_options_hash]
    have hc : collectInValues [(.sym key, v)] =
        if key = "in" then .ok [v] else .error ⟨.argumentError, "unknown keyword"⟩ := rfl
    rw [hc, if_neg hk]
  · intro v1 v2
    cases v1 <;> cases v2 <;> rfl

/-- Witness for C7's theorem at concrete option hashes. -/
theorem offset_from_options_in_key_witness :
    offset_from_options (.hash [(.sym "in", .fixnum 3600)]) = .ok (Offset.fixed 3600) ∧
    offset_from_options (.hash [(.sym "in", .str "Z")]) = .ok Offset.utc ∧
    offset_from_options (.hash [(.sym "in", .str "junk")]) =
      .error ⟨.argumentError, "+HH:MM, -HH:MM, UTC, or A..I,K..Z expected for utc_offset"⟩ ∧
    offset_from_options (.hash [(.sym "foo", .fixnum 1)]) =
      .error ⟨.argumentError, "unknown keyword"⟩ :=
  ⟨offset_from_options_in_key.1 3600 (by decide),
   offset_from_options_in_key.2.1 "Z" Offset.utc rfl,
   offset_from_options_in_key.2.2.1 "junk" ⟨"junk"⟩ rfl,
   offset_from_options_in_key.2.2.2.1 "foo" (.fixnum 1) (by decide)⟩

/-- C3 counterexample: comparing a Time against an Integer raises an
ARGUMENT error, not a type error as the claim states. -/
theorem cmp_error_kind_counterexample :
    errKind (cmp (.timeVal ⟨0, 0, Offset.utc⟩) (.fixnum 5)) = some .argumentError ∧
    errKind (cmp (.timeVal ⟨0, 0, Offset.utc⟩) (.fixnum 5)) ≠ some .typeError :=
  ⟨rfl, by decide⟩

/-- C3 amended: comparing a Time against a non-Time value fails with an
ARGUMENT error whose message names the foreign value's type. -/
theorem cmp_foreign_argument_error (t : Time) (other : RValue)
    (h : ruby_type other ≠ .data) :
    cmp (.timeVal t) other =
      .error ⟨.argumentError, "comparison of Time with " ++ typeName other ++ " failed"⟩ ∧
    ∃ pre post : String,
      "comparison of Time with " ++ typeName other ++ " failed" =
        pre ++ typeName other ++ post := by
  refine ⟨?_, "comparison of Time with ", " failed", rfl⟩
  cases other
  case timeVal t2 => exact absurd rfl h
  all_goals rfl

/-- Witness for C3's amended theorem at an Integer argument. -/
theorem cmp_foreign_argument_error_witness :
    cmp (.timeVal ⟨0, 0, Offset.utc⟩) (.fixnum 5) =
      .error ⟨.argumentError,
        "comparison of Time with " ++ typeName (.fixnum 5) ++ " failed"⟩ :=
  (cmp_foreign_argument_error ⟨0, 0, Offset.utc⟩ (.fixnum 5) (by decide)).1

/-- C9: `eql` applied to a non-Time argument returns `false` without
raising, while `cmp` raises an (argument) error for the same
argument. -/
theorem eql_foreign_returns_false (t : Time) (other : RValue)
    (h : ruby_type other ≠ .data) :
    eql (.timeVal t) other = .ok (.bool false) ∧
    errKind (cmp (.timeVal t) other) = some .argumentError := by
  cases other
  case timeVal t2 => exact absurd rfl h
  all_goals exact ⟨rfl, rfl⟩

/-- Witness for C9's theorem at an Integer argument. -/
theorem eql_foreign_returns_false_witness :
    eql (.timeVal ⟨0, 0, Offset.utc⟩) (.fixnum 5) = .ok (.bool false) ∧
    errKind (cmp (.timeVal ⟨0, 0, Offset.utc⟩) (.fixnum 5)) = some .argumentError :=
  eql_foreign_returns_false ⟨0, 0, Offset.utc⟩ (.fixnum 5) (by decide)

/-! ## C2: the subsecond range checks in `at` -/

/-- `at` with a fixnum seconds argument, a fixnum subsecond and a unit
symbol, reduced to its subsecond computation. -/
theorem timeAt_fixnum_sym (secv sv : Int) (u : String) :
    timeAt (.fixnum secv) (some (.fixnum sv)) (some (.sym u)) none =
      match subsecNanos (some (.fixnum sv)) (some (.sym u)) with
      | .error e => .error e
      | .ok ns =>
        match with_timespec_and_offset secv ns Offset.local with
        | .ok t => .ok t
        | .error _ => .error ⟨.argumentError, "Time too large"⟩ := rfl

/-- Overflow of the subsecond multiply is reported as the `Time too
large` argument error. -/
theorem subsecNanos_ms_overflow (sv : Int) (h : ¬ inI64 (sv * 1000000)) :
    subsecNanos (some (.fixnum sv)) (some (.sym "milliseconds")) =
      .error ⟨.argumentError, "Time too large"⟩ := by
  show (match checked_mul sv 1000000 with
        | none => (Except.error ⟨.argumentError, "Time too large"⟩ : Except RError Int)
        | some prod =>
          if 0 ≤ prod ∧ prod ≤ MAX_NANOS then .ok prod
          else if prod < 0 then .error ⟨.argumentError, "subseconds needs to be > 0"⟩
          else .error ⟨.argumentError, "subseconds outside of range"⟩) = _
  unfold checked_mul
  rw [if_neg h]

/-- A negative subsecond result is reported with its own message. -/
theorem subsecNanos_nsec_neg (sv : Int) (h64 : inI64 sv) (hneg : sv < 0) :
    subsecNanos (some (.fixnum sv)) (some (.sym "nsec")) =
      .error ⟨.argumentError, "subseconds needs to be > 0"⟩ := by
  show (match checked_mul sv 1 with
        | none => (Except.error ⟨.argumentError, "Time too large"⟩ : Except RError Int)
        | some prod =>
          if 0 ≤ prod ∧ prod ≤ MAX_NANOS then .ok prod
          else if prod < 0 then .error ⟨.argumentError, "subseconds needs to be > 0"⟩
          else .error ⟨.argumentError, "subseconds outside of range"⟩) = _
  unfold checked_mul
  rw [mul_one, if_pos h64]
  show (if 0 ≤ sv ∧ sv ≤ MAX_NANOS then (Except.ok sv : Except RError Int)
        else if sv < 0 then .error ⟨.argumentError, "subseconds needs to be > 0"⟩
        else .error ⟨.argumentError, "subseconds outside of range"⟩) = _
  rw [if_neg (by omega), if_pos hneg]

/-- C2 counterexample: subsecond-multiplication overflow in `at` raises
an ARGUMENT error, not a range error as the claim states. -/
theorem at_overflow_kind_counterexample :
    errKind (timeAt (.fixnum 0) (some (.fixnum 10000000000000))
      (some (.sym "milliseconds")) none) = some .argumentError ∧
    errKind (timeAt (.fixnum 0) (some (.fixnum 10000000000000))
      (some (.sym "milliseconds")) none) ≠ some .rangeError :=
  ⟨rfl, by decide⟩

/-- C2 amended: overflow of the subsecond multiply fails with the
`Time too large` ARGUMENT error; a negative subsecond result fails with
"subseconds needs to be > 0", distinct from the too-large message; and
999 999 999 nanoseconds succeeds while 1 000 000 000 fails. -/
theorem at_subsec_range_amended :
    (∀ sv : Int, inI64 sv → ¬ inI64 (sv * 1000000) →
      timeAt (.fixnum 0) (some (.fixnum sv)) (some (.sym "milliseconds")) none =
        .error ⟨.argumentError, "Time too large"⟩) ∧
    (∀ sv : Int, inI64 sv → sv < 0 →
      timeAt (.fixnum 0) (some (.fixnum sv)) (some (.sym "nsec")) none =
        .error ⟨.argumentError, "subseconds needs to be > 0"⟩) ∧
    timeAt (.fixnum 0) (some (.fixnum 999999999)) (some (.sym "nsec")) none =
      .ok ⟨0, 999999999, Offset.local⟩ ∧
    timeAt (.fixnum 0) (some (.fixnum 1000000000)) (some (.sym "nsec")) none =
      .error ⟨.argumentError, "subseconds outside of range"⟩ ∧
    ("subseconds needs to be > 0" : String) ≠ "subseconds outside of range" := by
  refine ⟨?_, ?_, rfl, rfl, by decide⟩
  · intro sv h64 h
    rw [timeAt_fixnum_sym, subsecNanos_ms_overflow sv h]
  · intro sv h64 hneg
    rw [timeAt_fixnum_sym, subsecNanos_nsec_neg sv h64 hneg]

/-- Witness for C2's amended theorem at concrete subsecond counts. -/
theorem at_subsec_range_amended_witness :
    timeAt (.fixnum 0) (some (.fixnum 10000000000000)) (some (.sym "milliseconds")) none =
      .error ⟨.argumentError, "Time too large"⟩ ∧
    timeAt (.fixnum 0) (some (.fixnum (-1))) (some (.sym "nsec")) none =
      .error ⟨.argumentError, "subseconds needs to be > 0"⟩ :=
  ⟨at_subsec_range_amended.1 10000000000000 (by decide) (by decide),
   at_subsec_range_amended.2.1 (-1) (by decide) (by decide)⟩

end Artichoke
